import Mathlib

/-!
Verification of the PUZZLE TypeFuzz prototype
(src/PUZZLE/TYPEFUZZ/TypeFuzzPrototype.cpp).

The program is a type-directed random expression generator for an
SMT-style term language.  Its mock `cvc5::Term` stores only a rendered
string; we embed the tree structure that the `mkInteger` / `mkBoolean` /
`mkTerm` combinators build, since every claim quantifies over that
structure (operator kinds, children, depth).

The C++ `std::mt19937 rng` is embedded as an explicit stream of raw
draws `RandStream : Nat -> Nat` threaded through each call: `rng()`
reads the head of the stream and advances it, and
`uniform_int_distribution(min, max)(rng)` is modelled as one draw
reduced modulo the range size.  The seed of the engine determines the
whole stream, so a campaign is a pure function of the stream and the
campaign parameters.
-/

/-- The raw output stream of the seeded `std::mt19937` engine:
draw `n` is the value of the `n`-th call to `rng()`. -/
abbrev RandStream := Nat → Nat

/-- Advance the engine past one consumed draw. -/
def tail (g : RandStream) : RandStream := fun n => g (n + 1)

/-- `cvc5::Kind` (TypeFuzzPrototype.cpp lines 10-12). -/
inductive Kind where
  | add | sub | mult | gt | lt | equal | land | lor | lxor
  deriving DecidableEq, Repr

/-- The expression tree built by the `cvc5::Solver` term constructors:
`mkInteger` gives an integer literal, `mkBoolean` a boolean literal,
`mkTerm kind children` an operator node (lines 46-74). -/
inductive Term where
  | intLit : Int → Term
  | boolLit : Bool → Term
  | op : Kind → List Term → Term
  deriving Repr

/-- `Kind` is an arithmetic operator (ADD, SUB, MULT). -/
def isArithKind : Kind → Bool
  | .add => true | .sub => true | .mult => true
  | _ => false

/-- `Kind` is a comparison operator (GT, LT, EQUAL). -/
def isCmpKind : Kind → Bool
  | .gt => true | .lt => true | .equal => true
  | _ => false

/-- `Kind` is a boolean connective (AND, OR, XOR). -/
def isConnKind : Kind → Bool
  | .land => true | .lor => true | .lxor => true
  | _ => false

/-- The arithmetic operator chosen by `switch (rng() % 3)` in
`generateArithmetic` (lines 135-140): 0 -> ADD, 1 -> SUB, 2 -> MULT
(the `default: ADD` arm is unreachable for a `% 3` scrutinee). -/
def arithKind : Nat → Kind
  | 0 => .add
  | 1 => .sub
  | _ => .mult

/-- The comparison operator chosen by `switch (rng() % 3)` in the
terminal branch of `generateBooleanExpr` (lines 155-160):
0 -> GT, 1 -> LT, 2 -> EQUAL. -/
def cmpKind : Nat → Kind
  | 0 => .gt
  | 1 => .lt
  | _ => .equal

/-- The connective chosen by `switch (rng() % 3)` at the end of
`generateBooleanExpr` (lines 169-174): 0 -> AND, 1 -> OR, 2 -> XOR. -/
def connKind : Nat → Kind
  | 0 => .land
  | 1 => .lor
  | _ => .lxor

/-- `TypeFuzz::generateInteger` (lines 109-113): one uniform draw in
`[min, max]` = `[-100, 100]`, embedded as `min + draw % (max - min + 1)`,
wrapped in `mkInteger`. Consumes one draw. -/
def generateInteger (g : RandStream) : Term × RandStream :=
  (Term.intLit (Int.ofNat (g 0 % 201) - 100), tail g)

/-- `TypeFuzz::generateBoolean` (lines 116-119): `rng() % 2 == 1`
wrapped in `mkBoolean`.  Consumes one draw. -/
def generateBoolean (g : RandStream) : Term × RandStream :=
  (Term.boolLit (g 0 % 2 == 1), tail g)

/-- The arithmetic depth cap: the literal `2` in the condition
`depth > 2` of `generateArithmetic` (line 124). -/
def arithMaxDepth : Nat := 2

/-- The boolean depth cap: the literal `1` in the condition
`depth > 1` of `generateBooleanExpr` (line 146). -/
def boolMaxDepth : Nat := 1

/-- `TypeFuzz::generateArithmetic` (lines 122-141), with the hard-coded
cap `2` generalised to a parameter `maxDepth` (the code's value is
`arithMaxDepth`).  The C++ condition
`depth > 2 || (depth > 0 && rng() % 3 == 0)` short-circuits, so the
coin draw is consumed only when `depth` is in `1..maxDepth`; after a
failed coin the stream has advanced past that draw (`gc`).  The
non-terminal branch evaluates `left`, then `right`, then draws the
operator selector. -/
def generateArithmetic (maxDepth depth : Nat) (g : RandStream) : Term × RandStream :=
  if h : depth > maxDepth then generateInteger g
  else if depth > 0 ∧ g 0 % 3 = 0 then generateInteger (tail g)
  else
    let gc := if depth > 0 then tail g else g
    let L := generateArithmetic maxDepth (depth + 1) gc
    let R := generateArithmetic maxDepth (depth + 1) L.2
    (Term.op (arithKind (R.2 0 % 3)) [L.1, R.1], tail R.2)
termination_by maxDepth + 1 - depth
decreasing_by
  all_goals (simp_wf; omega)

/-- The terminal block of `TypeFuzz::generateBooleanExpr`
(lines 147-161): a fair coin picks either `generateBoolean()` or a
comparison whose two children are `generateArithmetic()` calls, i.e.
arithmetic generation restarted at depth `0` with cap `amax`
(`arithMaxDepth` in the code). -/
def boolTerminal (amax : Nat) (g : RandStream) : Term × RandStream :=
  if g 0 % 2 = 0 then generateBoolean (tail g)
  else
    let L := generateArithmetic amax 0 (tail g)
    let R := generateArithmetic amax 0 L.2
    (Term.op (cmpKind (R.2 0 % 3)) [L.1, R.1], tail R.2)

/-- `TypeFuzz::generateBooleanExpr` (lines 144-175), with the
hard-coded boolean cap `1` generalised to `bmax` and the arithmetic cap
used under comparisons generalised to `amax` (the code's values are
`boolMaxDepth` and `arithMaxDepth`).  The condition
`depth > 1 || (depth > 0 && rng() % 2 == 0)` short-circuits exactly as
in `generateArithmetic`. -/
def generateBooleanExpr (amax bmax depth : Nat) (g : RandStream) : Term × RandStream :=
  if h : depth > bmax then boolTerminal amax g
  else if depth > 0 ∧ g 0 % 2 = 0 then boolTerminal amax (tail g)
  else
    let gc := if depth > 0 then tail g else g
    let L := generateBooleanExpr amax bmax (depth + 1) gc
    let R := generateBooleanExpr amax bmax (depth + 1) L.2
    (Term.op (connKind (R.2 0 % 3)) [L.1, R.1], tail R.2)
termination_by bmax + 1 - depth
decreasing_by
  all_goals (simp_wf; omega)

/-- Satisfiability result of the mock solver
(`cvc5::Solver::Result`, lines 26-34): it carries no state. -/
structure Solver.Result where

/-- `Result::isSat` (lines 28-31): the mock always answers `true`. -/
def Solver.Result.isSat (_ : Solver.Result) : Bool := true

/-- `Result::isUnsat` (line 32): `!isSat()`. -/
def Solver.Result.isUnsat (r : Solver.Result) : Bool := !r.isSat

/-- The mock `cvc5::Solver` state (lines 23-91): the accumulated
`constraints` vector is its only mutable state relevant to the claims
(`setLogic` and `setOption` are no-ops in the source). -/
structure Solver where
  constraints : List Term

/-- `Solver::assertFormula` (lines 76-78): `constraints.push_back(formula)`. -/
def Solver.assertFormula (s : Solver) (formula : Term) : Solver :=
  ⟨s.constraints ++ [formula]⟩

/-- `Solver::checkSat` (lines 80-83): returns a fresh `Result` and does
not touch the constraint state. -/
def Solver.checkSat (s : Solver) : Solver.Result × Solver :=
  (⟨⟩, s)

/-- `Solver::resetAssertions` (lines 85-87): `constraints.clear()`. -/
def Solver.resetAssertions (_ : Solver) : Solver :=
  ⟨[]⟩

/-- The per-test record observable from one iteration of
`TypeFuzz::fuzz` (lines 183-211): the constraints generated and
asserted in that iteration, and the satisfiability classification
(`result.isSat()`) that selects the SATISFIABLE / UNSATISFIABLE report
branch. -/
structure FuzzResult where
  constraints : List Term
  sat : Bool
  deriving Repr

/-- The inner loop of one test case (lines 188-194): generate
`constraints_per_test` boolean expressions, record each and assert it
on the solver, in order. -/
def genConstraints : Nat → Solver → RandStream → List Term × Solver × RandStream
  | 0, s, g => ([], s, g)
  | n + 1, s, g =>
    let C := generateBooleanExpr arithMaxDepth boolMaxDepth 0 g
    let rest := genConstraints n (s.assertFormula C.1) C.2
    (C.1 :: rest.1, rest.2)

/-- The outer loop of `TypeFuzz::fuzz` (lines 183-211), counted in
remaining iterations: per iteration, run the inner loop, call
`checkSat` once, record the classification, then `resetAssertions`. -/
def fuzzLoop (k : Int) : Nat → Solver → RandStream → List FuzzResult × Solver × RandStream
  | 0, s, g => ([], s, g)
  | n + 1, s, g =>
    let gen := genConstraints k.toNat s g
    let chk := gen.2.1.checkSat
    let rest := fuzzLoop k n chk.2.resetAssertions gen.2.2
    (⟨gen.1, chk.1.isSat⟩ :: rest.1, rest.2)

/-- `TypeFuzz::fuzz(num_tests, constraints_per_test)` (lines 178-217).
The parameters are `int` in the source; a C++ loop
`for (int i = 0; i < n; ++i)` performs `n.toNat` iterations (zero when
`n <= 0`).  The function performs no parameter validation. -/
def fuzz (numTests constraintsPerTest : Int) (s : Solver) (g : RandStream) :
    List FuzzResult × Solver × RandStream :=
  fuzzLoop constraintsPerTest numTests.toNat s g

/-- Fuel-indexed version of `generateArithmetic`: `fuel` bounds the
depth of the C++ call stack still available; `none` means the recursion
would have needed more nested calls than `fuel`. -/
def generateArithmeticF : Nat → Nat → Nat → RandStream → Option (Term × RandStream)
  | 0, _, _, _ => none
  | fuel + 1, maxDepth, depth, g =>
    if depth > maxDepth then some (generateInteger g)
    else if depth > 0 ∧ g 0 % 3 = 0 then some (generateInteger (tail g))
    else
      let gc := if depth > 0 then tail g else g
      (generateArithmeticF fuel maxDepth (depth + 1) gc).bind fun L =>
        (generateArithmeticF fuel maxDepth (depth + 1) L.2).bind fun R =>
          some (Term.op (arithKind (R.2 0 % 3)) [L.1, R.1], tail R.2)

/-- Fuel-indexed version of `generateBooleanExpr`, fuelling the boolean
self-recursion (the arithmetic calls inside `boolTerminal` are already
total by `generateArithmeticF_complete`). -/
def generateBooleanExprF : Nat → Nat → Nat → Nat → RandStream → Option (Term × RandStream)
  | 0, _, _, _, _ => none
  | fuel + 1, amax, bmax, depth, g =>
    if depth > bmax then some (boolTerminal amax g)
    else if depth > 0 ∧ g 0 % 2 = 0 then some (boolTerminal amax (tail g))
    else
      let gc := if depth > 0 then tail g else g
      (generateBooleanExprF fuel amax bmax (depth + 1) gc).bind fun L =>
        (generateBooleanExprF fuel amax bmax (depth + 1) L.2).bind fun R =>
          some (Term.op (connKind (R.2 0 % 3)) [L.1, R.1], tail R.2)

/-- Recursive type checker: the term is Arithmetic-typed — an integer
literal, or an arithmetic operator with exactly two Arithmetic-typed
children (spec section 3 invariants, checked over the whole tree). -/
def isArithB : Term → Bool
  | .intLit _ => true
  | .boolLit _ => false
  | .op k ch =>
    match ch with
    | [l, r] => isArithKind k && isArithB l && isArithB r
    | _ => false

/-- Recursive type checker: the term is Boolean-typed — a boolean
literal, a comparison with exactly two Arithmetic-typed children, or a
connective with exactly two Boolean-typed children. -/
def isBoolB : Term → Bool
  | .boolLit _ => true
  | .intLit _ => false
  | .op k ch =>
    match ch with
    | [l, r] =>
      (isCmpKind k && isArithB l && isArithB r) ||
      (isConnKind k && isBoolB l && isBoolB r)
    | _ => false

/-- Structural depth of a term tree: literals have depth 0, an operator
node is one more than the deepest child. -/
def Term.depth : Term → Nat
  | .intLit _ => 0
  | .boolLit _ => 0
  | .op _ ch =>
    match ch with
    | [l, r] => 1 + max l.depth r.depth
    | [t] => 1 + t.depth
    | _ => 1

theorem isArithKind_arithKind (n : Nat) : isArithKind (arithKind n) = true := by
  rcases n with _ | _ | n <;> rfl

theorem isCmpKind_cmpKind (n : Nat) : isCmpKind (cmpKind n) = true := by
  rcases n with _ | _ | n <;> rfl

theorem isConnKind_connKind (n : Nat) : isConnKind (connKind n) = true := by
  rcases n with _ | _ | n <;> rfl

theorem isArithB_generateArithmetic (md d : Nat) (g : RandStream) :
    isArithB (generateArithmetic md d g).1 = true := by
  unfold generateArithmetic
  split
  · simp [generateInteger, isArithB]
  · split
    · simp [generateInteger, isArithB]
    · simp only [isArithB, isArithKind_arithKind, Bool.true_and, Bool.and_eq_true]
      exact ⟨isArithB_generateArithmetic md (d + 1) _,
             isArithB_generateArithmetic md (d + 1) _⟩
termination_by md + 1 - d
decreasing_by
  all_goals (simp_wf; omega)

theorem isBoolB_boolTerminal (amax : Nat) (g : RandStream) :
    isBoolB (boolTerminal amax g).1 = true := by
  unfold boolTerminal
  split
  · simp [generateBoolean, isBoolB]
  · simp [isBoolB, isCmpKind_cmpKind, isArithB_generateArithmetic]

theorem isBoolB_generateBooleanExpr (amax bmax d : Nat) (g : RandStream) :
    isBoolB (generateBooleanExpr amax bmax d g).1 = true := by
  unfold generateBooleanExpr
  split
  · exact isBoolB_boolTerminal amax g
  · split
    · exact isBoolB_boolTerminal amax (tail g)
    · have hL := isBoolB_generateBooleanExpr amax bmax (d + 1)
        (if d > 0 then tail g else g)
      have hR := isBoolB_generateBooleanExpr amax bmax (d + 1)
        (generateBooleanExpr amax bmax (d + 1) (if d > 0 then tail g else g)).2
      simp [isBoolB, isConnKind_connKind, hL, hR]
termination_by bmax + 1 - d
decreasing_by
  all_goals (simp_wf; omega)

theorem depth_generateArithmetic (md d : Nat) (g : RandStream) :
    ((generateArithmetic md d g).1).depth ≤ md + 1 - d := by
  unfold generateArithmetic
  split
  · simp [generateInteger, Term.depth]
  · split
    · simp [generateInteger, Term.depth]
    · have hL := depth_generateArithmetic md (d + 1)
        (if d > 0 then tail g else g)
      have hR := depth_generateArithmetic md (d + 1)
        (generateArithmetic md (d + 1) (if d > 0 then tail g else g)).2
      simp only [Term.depth]
      omega
termination_by md + 1 - d
decreasing_by
  all_goals (simp_wf; omega)

/-- C1: every term returned by `generateBooleanExpr` (for any caps and
any depth argument) passes the recursive Boolean type check — each
comparison node has exactly two Arithmetic-typed children and each
connective node exactly two Boolean-typed children, all the way down —
and every term returned by `generateArithmetic` passes the recursive
Arithmetic type check, so arithmetic operators receive only
Arithmetic-typed children. -/
theorem generated_terms_well_typed (amax bmax md d e : Nat) (g1 g2 : RandStream) :
    isBoolB (generateBooleanExpr amax bmax d g1).1 = true ∧
    isArithB (generateArithmetic md e g2).1 = true :=
  ⟨isBoolB_generateBooleanExpr amax bmax d g1, isArithB_generateArithmetic md e g2⟩

/-- C2: a term produced by `generateArithmetic` started at depth 0 with
cap `maxDepth = d` has structural tree depth at most `d + 1`; in
particular with the code's cap `arithMaxDepth = 2` the depth is at most
3. -/
theorem generateArithmetic_depth_bound (md : Nat) (g1 g2 : RandStream) :
    ((generateArithmetic md 0 g1).1).depth ≤ md + 1 ∧
    ((generateArithmetic arithMaxDepth 0 g2).1).depth ≤ 3 := by
  constructor
  · have h := depth_generateArithmetic md 0 g1
    omega
  · have h := depth_generateArithmetic arithMaxDepth 0 g2
    simpa [arithMaxDepth] using h

theorem generateArithmeticF_complete (fuel md : Nat) :
    ∀ (d : Nat) (g : RandStream), 0 < fuel → md + 2 ≤ fuel + d →
      generateArithmeticF fuel md d g = some (generateArithmetic md d g) := by
  induction fuel with
  | zero => intro d g h1 h2; omega
  | succ f ih =>
    intro d g h1 h2
    rw [generateArithmeticF]
    conv_rhs => rw [generateArithmetic.eq_def]
    by_cases hd : d > md
    · simp [hd]
    · by_cases hc : d > 0 ∧ g 0 % 3 = 0
      · simp [hd, hc]
      · have hf : 0 < f := by omega
        have e1 := ih (d + 1) (if d > 0 then tail g else g) hf (by omega)
        have e2 := ih (d + 1)
          (generateArithmetic md (d + 1) (if d > 0 then tail g else g)).2 hf (by omega)
        simp [hd, hc, e1, e2]

theorem generateBooleanExprF_complete (fuel amax bmax : Nat) :
    ∀ (d : Nat) (g : RandStream), 0 < fuel → bmax + 2 ≤ fuel + d →
      generateBooleanExprF fuel amax bmax d g = some (generateBooleanExpr amax bmax d g) := by
  induction fuel with
  | zero => intro d g h1 h2; omega
  | succ f ih =>
    intro d g h1 h2
    rw [generateBooleanExprF]
    conv_rhs => rw [generateBooleanExpr.eq_def]
    by_cases hd : d > bmax
    · simp [hd]
    · by_cases hc : d > 0 ∧ g 0 % 2 = 0
      · simp [hd, hc]
      · have hf : 0 < f := by omega
        have e1 := ih (d + 1) (if d > 0 then tail g else g) hf (by omega)
        have e2 := ih (d + 1)
          (generateBooleanExpr amax bmax (d + 1) (if d > 0 then tail g else g)).2 hf (by omega)
        simp [hd, hc, e1, e2]

/-- C3: both generators terminate for every depth argument, every cap
and every draw sequence — a call-stack budget of `cap + 2 - depth`
nested activations always suffices: the fuel-indexed versions, which
return `none` on fuel exhaustion, never do so under that budget and
agree with the total functions. -/
theorem generation_terminates (fuel amax bmax md d : Nat) (g1 g2 : RandStream)
    (hf : 0 < fuel) (ha : md + 2 ≤ fuel + d) (hb : bmax + 2 ≤ fuel + d) :
    generateArithmeticF fuel md d g1 = some (generateArithmetic md d g1) ∧
    generateBooleanExprF fuel amax bmax d g2 = some (generateBooleanExpr amax bmax d g2) :=
  ⟨generateArithmeticF_complete fuel md d g1 hf ha,
   generateBooleanExprF_complete fuel amax bmax d g2 hf hb⟩

/-- Witness for C3 at the code's caps (`maxDepth = 2`, boolean cap 1),
depth 0 and a concrete draw sequence: stack budget 4 suffices. -/
theorem generation_terminates_witness :
    0 < 4 ∧ 2 + 2 ≤ 4 + 0 ∧ 1 + 2 ≤ 4 + 0 ∧
    (generateArithmeticF 4 2 0 (fun _ => 0) = some (generateArithmetic 2 0 (fun _ => 0)) ∧
     generateBooleanExprF 4 2 1 0 (fun _ => 0) = some (generateBooleanExpr 2 1 0 (fun _ => 0))) :=
  ⟨by decide, by decide, by decide,
   generation_terminates 4 2 1 2 0 (fun _ => 0) (fun _ => 0)
     (by decide) (by decide) (by decide)⟩

/-- C5: `generateArithmetic` returns a fresh integer literal exactly on
the terminal condition `currentDepth > maxDepth` or (`currentDepth > 0`
and the 1/3-probability coin `rng() % 3 == 0`), the literal value lying
in [-100, 100]; otherwise it generates `left` then `right` at
`currentDepth + 1` (the failed coin draw consumed when
`currentDepth > 0`) and wraps them in an operator drawn uniformly from
{ADD, SUB, MULT} by `rng() % 3`. -/
theorem generateArithmetic_structure (md d : Nat) (g : RandStream) :
    (d > md → generateArithmetic md d g = generateInteger g) ∧
    (¬ d > md → d > 0 → g 0 % 3 = 0 →
      generateArithmetic md d g = generateInteger (tail g)) ∧
    (∀ g' : RandStream,
      ∃ v : Int, generateInteger g' = (Term.intLit v, tail g') ∧ -100 ≤ v ∧ v ≤ 100) ∧
    (¬ d > md → ¬ (d > 0 ∧ g 0 % 3 = 0) →
      ∃ n : Nat,
        generateArithmetic md d g =
          (Term.op (arithKind n)
            [(generateArithmetic md (d + 1) (if d > 0 then tail g else g)).1,
             (generateArithmetic md (d + 1)
               ((generateArithmetic md (d + 1) (if d > 0 then tail g else g)).2)).1],
           tail ((generateArithmetic md (d + 1)
             ((generateArithmetic md (d + 1) (if d > 0 then tail g else g)).2)).2)) ∧
        isArithKind (arithKind n) = true) := by
  refine ⟨?_, ?_, ?_, ?_⟩
  · intro hd
    rw [generateArithmetic.eq_def]
    simp [hd]
  · intro hd hp hc
    rw [generateArithmetic.eq_def]
    simp [hd, hp, hc]
  · intro g'
    refine ⟨Int.ofNat (g' 0 % 201) - 100, rfl, ?_, ?_⟩
    · have := Nat.mod_lt (g' 0) (show 0 < 201 by decide)
      simp only [Int.ofNat_eq_natCast]
      omega
    · have := Nat.mod_lt (g' 0) (show 0 < 201 by decide)
      simp only [Int.ofNat_eq_natCast]
      omega
  · intro hd hc
    refine ⟨((generateArithmetic md (d + 1)
      ((generateArithmetic md (d + 1) (if d > 0 then tail g else g)).2)).2) 0 % 3,
      ?_, isArithKind_arithKind _⟩
    conv_lhs => rw [generateArithmetic.eq_def]
    simp [hd, hc]

/-- Witness for C5: at `maxDepth = 2`, `depth = 3` the terminal branch
fires and yields an in-range literal; at `depth = 0` (coin irrelevant)
the recursive branch fires. -/
theorem generateArithmetic_structure_witness :
    (generateArithmetic 2 3 (fun _ => 0) = generateInteger (fun _ => 0)) ∧
    (generateArithmetic 2 1 (fun _ => 0) = generateInteger (tail (fun _ => 0))) ∧
    (∃ n : Nat,
      generateArithmetic 2 0 (fun _ => 0) =
        (Term.op (arithKind n)
          [(generateArithmetic 2 1 (if 0 > 0 then tail (fun _ => 0) else (fun _ => 0))).1,
           (generateArithmetic 2 1
             ((generateArithmetic 2 1 (if 0 > 0 then tail (fun _ => 0) else (fun _ => 0))).2)).1],
         tail ((generateArithmetic 2 1
           ((generateArithmetic 2 1 (if 0 > 0 then tail (fun _ => 0) else (fun _ => 0))).2)).2)) ∧
      isArithKind (arithKind n) = true) :=
  ⟨(generateArithmetic_structure 2 3 (fun _ => 0)).1 (by decide),
   (generateArithmetic_structure 2 1 (fun _ => 0)).2.1 (by decide) (by decide) (by decide),
   (generateArithmetic_structure 2 0 (fun _ => 0)).2.2.2 (by decide) (by decide)⟩

/-- C8: whenever the terminal block of `generateBooleanExpr` is reached
(`depth > bmax`, or `depth > 0` and the fair coin) and the inner coin
selects a comparison, both children of the comparison are generated by
`generateArithmetic` with its depth counter restarted at `0`,
independently of the boolean depth. -/
theorem comparison_children_restart_at_zero (amax bmax d : Nat) (g : RandStream) :
    (d > bmax → generateBooleanExpr amax bmax d g = boolTerminal amax g) ∧
    (¬ d > bmax → d > 0 → g 0 % 2 = 0 →
      generateBooleanExpr amax bmax d g = boolTerminal amax (tail g)) ∧
    (¬ g 0 % 2 = 0 →
      ∃ n : Nat,
        boolTerminal amax g =
          (Term.op (cmpKind n)
            [(generateArithmetic amax 0 (tail g)).1,
             (generateArithmetic amax 0 ((generateArithmetic amax 0 (tail g)).2)).1],
           tail ((generateArithmetic amax 0 ((generateArithmetic amax 0 (tail g)).2)).2)) ∧
        isCmpKind (cmpKind n) = true) := by
  refine ⟨?_, ?_, ?_⟩
  · intro hd
    rw [generateBooleanExpr.eq_def]
    simp [hd]
  · intro hd hp hc
    rw [generateBooleanExpr.eq_def]
    simp [hd, hp, hc]
  · intro hc
    refine ⟨((generateArithmetic amax 0 ((generateArithmetic amax 0 (tail g)).2)).2) 0 % 3,
      ?_, isCmpKind_cmpKind _⟩
    rw [boolTerminal]
    simp [hc]

/-- Witness for C8 at the code's caps, boolean depth 2 (above the cap
1) and a draw sequence whose first draw selects the comparison. -/
theorem comparison_children_restart_at_zero_witness :
    (generateBooleanExpr 2 1 2 (fun _ => 1) = boolTerminal 2 (fun _ => 1)) ∧
    (generateBooleanExpr 2 1 1 (fun _ => 0) = boolTerminal 2 (tail (fun _ => 0))) ∧
    (∃ n : Nat,
      boolTerminal 2 (fun _ => 1) =
        (Term.op (cmpKind n)
          [(generateArithmetic 2 0 (tail (fun _ => 1))).1,
           (generateArithmetic 2 0 ((generateArithmetic 2 0 (tail (fun _ => 1))).2)).1],
         tail ((generateArithmetic 2 0 ((generateArithmetic 2 0 (tail (fun _ => 1))).2)).2)) ∧
      isCmpKind (cmpKind n) = true) :=
  ⟨(comparison_children_restart_at_zero 2 1 2 (fun _ => 1)).1 (by decide),
   (comparison_children_restart_at_zero 2 1 1 (fun _ => 0)).2.1 (by decide) (by decide) (by decide),
   (comparison_children_restart_at_zero 2 1 2 (fun _ => 1)).2.2 (by decide)⟩

theorem genConstraints_length (k : Nat) :
    ∀ (s : Solver) (g : RandStream), (genConstraints k s g).1.length = k := by
  induction k with
  | zero => intro s g; rfl
  | succ n ih => intro s g; simp [genConstraints, ih]

theorem genConstraints_solver (k : Nat) :
    ∀ (s : Solver) (g : RandStream),
      (genConstraints k s g).2.1.constraints = s.constraints ++ (genConstraints k s g).1 := by
  induction k with
  | zero => intro s g; simp [genConstraints]
  | succ n ih => intro s g; simp [genConstraints, ih, Solver.assertFormula]

theorem fuzzLoop_length (k : Int) (n : Nat) :
    ∀ (s : Solver) (g : RandStream), (fuzzLoop k n s g).1.length = n := by
  induction n with
  | zero => intro s g; rfl
  | succ m ih => intro s g; simp [fuzzLoop, ih]

theorem fuzzLoop_sizes (k : Int) (n : Nat) :
    ∀ (s : Solver) (g : RandStream),
      ((fuzzLoop k n s g).1).all (fun r => r.constraints.length == k.toNat) = true := by
  induction n with
  | zero => intro s g; rfl
  | succ m ih => intro s g; simp [fuzzLoop, ih, genConstraints_length]

theorem fuzzLoop_final_solver (k : Int) (n : Nat) :
    ∀ (s : Solver) (g : RandStream),
      (fuzzLoop k n s g).2.1 = if n = 0 then s else ⟨[]⟩ := by
  induction n with
  | zero => intro s g; rfl
  | succ m ih =>
    intro s g
    simp only [fuzzLoop, ih, Solver.resetAssertions]
    split <;> rfl

theorem fuzzLoop_all_sat (k : Int) (n : Nat) :
    ∀ (s : Solver) (g : RandStream),
      ((fuzzLoop k n s g).1).all (fun r => r.sat) = true := by
  induction n with
  | zero => intro s g; rfl
  | succ m ih => intro s g; simp [fuzzLoop, ih, Solver.Result.isSat]

/-- C6: a campaign `fuzz` with `numTests = N` and
`constraintsPerTest = K` yields exactly `N` per-test results; each
records exactly `K` generated terms, and those terms are exactly the
ones asserted on the solver in order (the solver's constraint list
after the inner loop extends its previous contents by the recorded
terms); after every iteration the solver is reset, so the final solver
state is empty whenever at least one test ran. -/
theorem fuzz_campaign_counts (N K k2 : Nat) (s s2 : Solver) (g g2 : RandStream) :
    ((fuzz (N : Int) (K : Int) s g).1).length = N ∧
    ((fuzz (N : Int) (K : Int) s g).1).all (fun r => r.constraints.length == K) = true ∧
    (genConstraints k2 s2 g2).2.1.constraints = s2.constraints ++ (genConstraints k2 s2 g2).1 ∧
    (fuzz (N : Int) (K : Int) s g).2.1 = (if N = 0 then s else ⟨[]⟩) := by
  refine ⟨?_, ?_, genConstraints_solver k2 s2 g2, ?_⟩
  · simp [fuzz, fuzzLoop_length]
  · have h := fuzzLoop_sizes (K : Int) (N : Int).toNat s g
    simpa [fuzz] using h
  · have h := fuzzLoop_final_solver (K : Int) (N : Int).toNat s g
    simp only [Int.toNat_natCast] at h
    simp [fuzz, h]

/-- C10: the mock solver classifies every check as satisfiable —
`Result::isSat` is constantly `true`, hence `isUnsat` constantly
`false`, every recorded test outcome in any campaign is `sat`, and the
UNSATISFIABLE report branch of `fuzz` can never be taken. -/
theorem mock_solver_always_sat (r : Solver.Result) (N K : Int) (s : Solver) (g : RandStream) :
    r.isSat = true ∧ r.isUnsat = false ∧
    ((fuzz N K s g).1).all (fun fr => fr.sat) = true :=
  ⟨rfl, rfl, fuzzLoop_all_sat K N.toNat s g⟩

/-- C9: `assertFormula` appends the formula to the accumulated
constraints leaving prior ones unchanged and in order,
`resetAssertions` empties the state whatever it held, and `checkSat`
leaves the state untouched and yields the same outcome when called
again without reasserting. -/
theorem solver_state_semantics (s : Solver) (f : Term) :
    (s.assertFormula f).constraints = s.constraints ++ [f] ∧
    (Solver.resetAssertions s).constraints = [] ∧
    (s.checkSat).2 = s ∧
    ((s.checkSat).2.checkSat).1.isSat = (s.checkSat).1.isSat :=
  ⟨rfl, rfl, rfl, rfl⟩

/-- The sequence of generated term lists observable from a campaign run
on a freshly constructed solver with engine draw stream `g`: the
`TypeFuzz` constructor (lines 102-106) seeds the `std::mt19937` engine
once, and the seed determines the whole stream. -/
def campaignConstraints (g : RandStream) (numTests constraintsPerTest : Int) :
    List (List Term) :=
  ((fuzz numTests constraintsPerTest ⟨[]⟩ g).1).map fun r => r.constraints

/-- C4: a campaign is a pure function of the seeded engine's draw
stream and the campaign parameters — two campaigns run with the same
seed (hence the same stream) and the same parameters produce
structurally identical sequences of generated terms. -/
theorem fuzz_deterministic (g1 g2 : RandStream) (n1 n2 k1 k2 : Int)
    (hg : g1 = g2) (hn : n1 = n2) (hk : k1 = k2) :
    campaignConstraints g1 n1 k1 = campaignConstraints g2 n2 k2 := by
  subst hg; subst hn; subst hk; rfl

/-- Witness for C4: two runs from the same concrete stream and
parameters coincide. -/
theorem fuzz_deterministic_witness :
    campaignConstraints (fun _ => 0) 3 2 = campaignConstraints (fun _ => 0) 3 2 :=
  fuzz_deterministic (fun _ => 0) (fun _ => 0) 3 3 2 2 rfl rfl rfl

/-- C7 counterexample: `fuzz` accepts the invalid parameter
`constraintsPerTest = -1` with `numTests = 1` and simply runs: the
iteration executes, `checkSat` is invoked on an empty constraint set
and a `sat` result is recorded — nothing is rejected and no
configuration error is ever produced (the function has no error
outcome at all). -/
theorem fuzz_accepts_invalid_params :
    fuzz 1 (-1) ⟨[]⟩ (fun _ => 0) = ([⟨[], true⟩], ⟨[]⟩, fun _ => 0) := rfl

/-- C7 (amended): the fuzz driver performs no parameter validation and
has no configuration-error outcome: `numTests <= 0` yields an empty
campaign (no iterations, no generation, state untouched), and
`constraintsPerTest <= 0` yields iterations that generate and assert
nothing but still invoke `checkSat` and record a `sat` result each. -/
theorem fuzz_no_validation (N K : Int) (s : Solver) (g : RandStream) :
    (N ≤ 0 → fuzz N K s g = ([], s, g)) ∧
    (K ≤ 0 → (fuzz N K s g).1 = List.replicate N.toNat ⟨[], true⟩) := by
  constructor
  · intro hN
    simp [fuzz, Int.toNat_of_nonpos hN, fuzzLoop]
  · intro hK
    have hK0 : K.toNat = 0 := Int.toNat_of_nonpos hK
    suffices h : ∀ (n : Nat) (s' : Solver) (g' : RandStream),
        (fuzzLoop K n s' g').1 = List.replicate n ⟨[], true⟩ by
      exact h N.toNat s g
    intro n
    induction n with
    | zero => intro s' g'; rfl
    | succ m ih =>
      intro s' g'
      simp [fuzzLoop, hK0, genConstraints, ih, Solver.Result.isSat,
        List.replicate_succ]

/-- Witness for C7's amended claim at concrete invalid parameters. -/
theorem fuzz_no_validation_witness :
    (fuzz (-1) (-2) ⟨[]⟩ (fun _ => 0) = ([], ⟨[]⟩, fun _ => 0)) ∧
    (fuzz (-1) (-2) ⟨[]⟩ (fun _ => 0)).1 = List.replicate ((-1 : Int)).toNat ⟨[], true⟩ :=
  ⟨(fuzz_no_validation (-1) (-2) ⟨[]⟩ (fun _ => 0)).1 (by decide),
   (fuzz_no_validation (-1) (-2) ⟨[]⟩ (fun _ => 0)).2 (by decide)⟩
